import Mathlib

/-!
Shallow embedding of the GLB-model processing pipeline
(`scripts/process_models.py`): texture loading, material classification and
shading-graph synthesis (`load_texture`, `create_texture_node`,
`process_materials`), environment-graph construction (`setup_hdri`), the
per-mesh normalization sequence inside `process_model`, and the per-asset
orchestration loop in `main`.  Machine floats of the source are modelled as
exact rationals; filesystem and host-API outcomes are modelled as explicit
oracle structures.
-/

namespace GLBModels

/-- Python's `pat in s` substring test, on character lists. -/
def listContains (s pat : List Char) : Bool :=
  match s with
  | [] => pat.isEmpty
  | _ :: t => pat.isPrefixOf s || listContains t pat

/-- Python's `pat in s` substring test on strings. -/
def strContains (s pat : String) : Bool :=
  listContains s.data pat.data

/-- Python's `s.lower()` (character-wise lowercasing; the script's material
names are ASCII). -/
def strToLower (s : String) : String := String.mk (s.data.map Char.toLower)

/-- Color-space tag carried by a loaded image (`img.colorspace_settings.name`). -/
inductive ColorSpace
  | sRGB
  | nonColor
  | filmicSRGB
deriving DecidableEq

/-- A loaded image resource: its channel file name and current color-space tag. -/
structure Texture where
  name : String
  colorSpace : ColorSpace
deriving DecidableEq

/-- The scalar input sockets of the Principled BSDF node that the script sets
(`Specular`, `Roughness`, `Metallic`, `Transmission`, `IOR`), as exact
rationals.  `ior` starts at Blender's stock default 1.45; the script never
writes it outside the diamond/gem branch. -/
structure BsdfInputs where
  metallic : ℚ
  roughness : ℚ
  specular : ℚ
  transmission : ℚ
  ior : ℚ
deriving DecidableEq

/-- The defaults the script writes before classification
(lines 193-195 of `process_models.py`), on top of stock transmission 0 and
IOR 1.45. -/
def defaultInputs : BsdfInputs :=
  { metallic := 0, roughness := 0.7, specular := 0.5, transmission := 0, ior := 1.45 }

/-- Material classification (lines 198 and 241-251): lowercase the material
name, then test the ordered rule table with `if/elif`, first match winning:
gold, then silver|metal, then diamond|gem, else the defaults stand. -/
def classify (matName : String) : BsdfInputs :=
  let n := strToLower matName
  if strContains n "gold" then
    { defaultInputs with metallic := 1, roughness := 0.2 }
  else if strContains n "silver" || strContains n "metal" then
    { defaultInputs with metallic := 1, roughness := 0.1 }
  else if strContains n "diamond" || strContains n "gem" then
    { defaultInputs with metallic := 0, roughness := 0.02, transmission := 1, ior := 2.4 }
  else
    defaultInputs

/-- Filesystem / host-API oracle for the textures directory: whether the
conventionally-named file `<name>.png` exists, and whether `images.load` on it
succeeds. -/
structure TexDir where
  fileExists : String → Bool
  loadOk : String → Bool

/-- `load_texture(texture_name, color_space)` (lines 140-151).  Returns the
optional loaded image paired with whether a warning was printed: file present
and loadable ⇒ image tagged from the caller's `color_space` argument, no
warning; present but unreadable ⇒ `none` with a warning; absent ⇒ `none`
silently. -/
def load_texture (fs : TexDir) (textureName : String) (colorSpace : String) :
    Option Texture × Bool :=
  if fs.fileExists textureName then
    if fs.loadOk textureName then
      (some { name := textureName,
              colorSpace := if colorSpace = "sRGB" then ColorSpace.sRGB else ColorSpace.nonColor },
       false)
    else
      (none, true)
  else
    (none, false)

/-- The four channel images `process_materials` loads up front
(lines 168-171): `albedo` as sRGB, the rest as Non-Color. -/
structure LoadedMaps where
  base_color_map : Option Texture
  normal_map : Option Texture
  roughness_map : Option Texture
  metallic_map : Option Texture
deriving DecidableEq

def loadMaps (fs : TexDir) : LoadedMaps :=
  { base_color_map := (load_texture fs "albedo" "sRGB").1
    normal_map := (load_texture fs "normal" "Non-Color").1
    roughness_map := (load_texture fs "roughness" "Non-Color").1
    metallic_map := (load_texture fs "metallic" "Non-Color").1 }

/-- The PBR channel a sampler node feeds. -/
inductive Channel
  | baseColor
  | normal
  | roughness
  | metallic
deriving DecidableEq

/-- Shading nodes created per material (lines 188-235): the Principled BSDF,
material output, texture coordinates, mapping, image samplers (with their
image and the channel they were created for), and the normal-map decode. -/
inductive MatNode
  | bsdfPrincipled
  | outputMaterial
  | texCoord
  | mapping
  | texImage (channel : Channel) (tex : Texture)
  | normalMapNode
deriving DecidableEq

/-- A link in a node tree: source node id and socket, destination node id and
socket.  Node ids are positions in the creation-ordered node list. -/
structure Link where
  src : Nat
  srcSocket : String
  dst : Nat
  dstSocket : String
deriving DecidableEq

/-- The per-material node tree the script synthesizes: creation-ordered nodes,
links, and the BSDF scalar input defaults. -/
structure MatGraph where
  nodes : List MatNode
  links : List Link
  bsdf : BsdfInputs
deriving DecidableEq

/-- `create_texture_node(nodes, img, name, location, color_space)`
(lines 153-161): `none` image ⇒ no node; otherwise a sampler node whose
image is re-tagged from the `color_space` argument. -/
def create_texture_node (img : Option Texture) (channel : Channel) (colorSpace : String) :
    Option MatNode :=
  match img with
  | none => none
  | some tx =>
      some (MatNode.texImage channel
        { tx with colorSpace := if colorSpace = "sRGB" then ColorSpace.sRGB else ColorSpace.nonColor })

/-- The loop body of `process_materials` for one non-null material slot
(lines 178-251): clear the tree, create BSDF (id 0) and output (id 1), set
defaults, create texture coordinates (id 2) and mapping (id 3) with the
UV link, instantiate a sampler subgraph for each available channel only,
link BSDF to output, then apply the classification rule table. -/
def buildMaterialGraph (maps : LoadedMaps) (matName : String) : MatGraph :=
  let bsdfId := 0
  let outputId := 1
  let texCoordId := 2
  let mappingId := 3
  let nodes0 : List MatNode :=
    [MatNode.bsdfPrincipled, MatNode.outputMaterial, MatNode.texCoord, MatNode.mapping]
  let links0 : List Link := [⟨texCoordId, "UV", mappingId, "Vector"⟩]
  let step1 : List MatNode × List Link :=
    match create_texture_node maps.base_color_map Channel.baseColor "sRGB" with
    | none => (nodes0, links0)
    | some n =>
        let id := nodes0.length
        (nodes0 ++ [n],
         links0 ++ [⟨mappingId, "Vector", id, "Vector"⟩, ⟨id, "Color", bsdfId, "Base Color"⟩])
  let step2 : List MatNode × List Link :=
    match create_texture_node maps.normal_map Channel.normal "Non-Color" with
    | none => step1
    | some n =>
        let id := step1.1.length
        let nmId := id + 1
        (step1.1 ++ [n, MatNode.normalMapNode],
         step1.2 ++ [⟨mappingId, "Vector", id, "Vector"⟩, ⟨id, "Color", nmId, "Color"⟩,
                     ⟨nmId, "Normal", bsdfId, "Normal"⟩])
  let step3 : List MatNode × List Link :=
    match create_texture_node maps.roughness_map Channel.roughness "Non-Color" with
    | none => step2
    | some n =>
        let id := step2.1.length
        (step2.1 ++ [n],
         step2.2 ++ [⟨mappingId, "Vector", id, "Vector"⟩, ⟨id, "Color", bsdfId, "Roughness"⟩])
  let step4 : List MatNode × List Link :=
    match create_texture_node maps.metallic_map Channel.metallic "Non-Color" with
    | none => step3
    | some n =>
        let id := step3.1.length
        (step3.1 ++ [n],
         step3.2 ++ [⟨mappingId, "Vector", id, "Vector"⟩, ⟨id, "Color", bsdfId, "Metallic"⟩])
  { nodes := step4.1
    links := step4.2 ++ [⟨bsdfId, "BSDF", outputId, "Surface"⟩]
    bsdf := classify matName }

/-- A material: its name and its (optional) synthesized node tree. -/
structure Material where
  name : String
  node_tree : Option MatGraph
deriving DecidableEq

/-- `process_materials(obj)` (lines 163-251) on the object's slot list: an
empty slot list returns immediately; otherwise the four channel maps are
loaded once and every slot whose material is non-null gets a freshly
synthesized tree, null slots are skipped by `continue`. -/
def process_materials (fs : TexDir) (slots : List (Option Material)) :
    List (Option Material) :=
  if slots.isEmpty then slots
  else
    let maps := loadMaps fs
    slots.map (fun slot =>
      match slot with
      | none => none
      | some mat => some { mat with node_tree := some (buildMaterialGraph maps mat.name) })

/-- A point or vector in model space, as exact rationals. -/
abbrev V3 := ℚ × ℚ × ℚ

def scaleV (s v : V3) : V3 := (s.1 * v.1, s.2.1 * v.2.1, s.2.2 * v.2.2)

def addV (a b : V3) : V3 := (a.1 + b.1, a.2.1 + b.2.1, a.2.2 + b.2.2)

def subV (a b : V3) : V3 := (a.1 - b.1, a.2.1 - b.2.1, a.2.2 - b.2.2)

/-- Center of the axis-aligned bounding box of a vertex list (what
`origin_set(type='ORIGIN_GEOMETRY', center='BOUNDS')` recenters to); the
empty mesh keeps its origin. -/
def boundsCenter (vs : List V3) : V3 :=
  match vs with
  | [] => (0, 0, 0)
  | v :: rest =>
      let lo := rest.foldl
        (fun a b => (min a.1 b.1, min a.2.1 b.2.1, min a.2.2 b.2.2)) v
      let hi := rest.foldl
        (fun a b => (max a.1 b.1, max a.2.1 b.2.1, max a.2.2 b.2.2)) v
      ((lo.1 + hi.1) / 2, (lo.2.1 + hi.2.1) / 2, (lo.2.2 + hi.2.2) / 2)

/-- One imported mesh object: its object transform, local-space vertices,
polygon count, shading flags, and material slots.  `normalsRecomputed`
records that `normals_make_consistent` has been run on the mesh. -/
structure MeshObj where
  scale : V3
  rotation_euler : V3
  location : V3
  verts : List V3
  polygons : Nat
  shadeSmooth : Bool
  use_auto_smooth : Bool
  auto_smooth_angle : ℚ
  normalsRecomputed : Bool
  material_slots : List (Option Material)
deriving DecidableEq

/-- The normalization stages executed per mesh inside `process_model`
(the mesh starts in the Imported state, which is not an executed stage). -/
inductive Stage
  | transformBaked
  | originCentered
  | shaded
  | smoothed
  | normalsFixed
deriving DecidableEq

/-- `transform_apply(location=False, rotation=True, scale=True)` (line 306):
the current rotation and scale are baked into the vertex data and reset to
identity; the object location is untouched.  Euler-rotation application on
vertices involves transcendental functions, so the embedding is parametric in
the rotation action `rot`; every theorem below holds for an arbitrary `rot`
(the pipeline only ever bakes the zero rotation). -/
def transform_apply (rot : V3 → V3 → V3) (m : MeshObj) : MeshObj :=
  { m with verts := m.verts.map (fun v => rot m.rotation_euler (scaleV m.scale v))
           rotation_euler := (0, 0, 0)
           scale := (1, 1, 1) }

/-- `origin_set(type='ORIGIN_GEOMETRY', center='BOUNDS')` (line 309): move the
object origin to the bounding-box center — vertices shift by the opposite of
the center and the object location moves by the center mapped through the
current object transform. -/
def origin_set_bounds (rot : V3 → V3 → V3) (m : MeshObj) : MeshObj :=
  let c := boundsCenter m.verts
  { m with verts := m.verts.map (fun v => subV v c)
           location := addV m.location (rot m.rotation_euler (scaleV m.scale c)) }

/-- The stages the per-mesh loop body executes, in order: smoothing only when
the mesh has polygons (line 316); the normals pass is unguarded
(lines 322-325). -/
def normalizeTrace (m : MeshObj) : List Stage :=
  [Stage.transformBaked, Stage.originCentered, Stage.shaded]
    ++ (if 0 < m.polygons then [Stage.smoothed] else [])
    ++ [Stage.normalsFixed]

/-- The per-mesh loop body of `process_model` (lines 298-328): reset scale
and rotation, bake them (`TransformBaked`); recenter the origin to the bounds
center and zero the location (`OriginCentered`); synthesize materials
(`Shaded`); when the mesh has polygons, enable smooth shading with a 60°
auto-smooth angle (`Smoothed`); recompute outward-consistent normals
unconditionally (`NormalsFixed`).  Returns the final object and the list of
stages executed. -/
def normalizeObj (rot : V3 → V3 → V3) (fs : TexDir) (m : MeshObj) :
    MeshObj × List Stage :=
  let m1 := { m with scale := ((1 : ℚ), (1 : ℚ), (1 : ℚ)), rotation_euler := ((0 : ℚ), (0 : ℚ), (0 : ℚ)) }
  let m2 := transform_apply rot m1
  let m3 := origin_set_bounds rot m2
  let m4 := { m3 with location := ((0 : ℚ), (0 : ℚ), (0 : ℚ)) }
  let m5 := { m4 with material_slots := process_materials fs m4.material_slots }
  let m6 :=
    if 0 < m5.polygons then
      { m5 with shadeSmooth := true, use_auto_smooth := true, auto_smooth_angle := 1.0472 }
    else m5
  let m7 := { m6 with normalsRecomputed := true }
  (m7, normalizeTrace m)

/-- World-graph nodes created by `setup_hdri` (lines 59-123).  The
environment-sample node carries its optional image and the optional constant
fallback color written on the load-failure path. -/
inductive WorldNode
  | texEnvironment (image : Option Texture) (fallbackColor : Option (ℚ × ℚ × ℚ × ℚ))
  | background
  | mapping
  | texCoord
  | mixShader
  | ambientOcclusion
  | outputWorld
deriving DecidableEq

/-- A world node with its payload erased, for comparing graph topology. -/
inductive WorldNodeKind
  | texEnvironment
  | background
  | mapping
  | texCoord
  | mixShader
  | ambientOcclusion
  | outputWorld
deriving DecidableEq

def worldKind : WorldNode → WorldNodeKind
  | WorldNode.texEnvironment _ _ => WorldNodeKind.texEnvironment
  | WorldNode.background => WorldNodeKind.background
  | WorldNode.mapping => WorldNodeKind.mapping
  | WorldNode.texCoord => WorldNodeKind.texCoord
  | WorldNode.mixShader => WorldNodeKind.mixShader
  | WorldNode.ambientOcclusion => WorldNodeKind.ambientOcclusion
  | WorldNode.outputWorld => WorldNodeKind.outputWorld

/-- The world node tree: creation-ordered nodes and links (ids are list
positions). -/
structure WorldGraph where
  nodes : List WorldNode
  links : List Link
deriving DecidableEq

/-- The node set and link topology of a world graph, with node payloads
erased. -/
def worldTopology (g : WorldGraph) : List WorldNodeKind × List Link :=
  (g.nodes.map worldKind, g.links)

/-- `setup_hdri(hdri_path)` (lines 59-123), given the outcome `panorama` of
the attempted `images.load` (`some` = loaded image, `none` = the `except`
branch ran: load failed or the file was absent).  On success the image is
re-tagged Filmic sRGB; on failure the environment node keeps no image and is
given the constant color (0.05, 0.05, 0.05, 1.0).  All node and link
construction is unconditional. -/
def setup_hdri (panorama : Option Texture) : WorldGraph :=
  let envTex : WorldNode :=
    match panorama with
    | some img => WorldNode.texEnvironment (some { img with colorSpace := ColorSpace.filmicSRGB }) none
    | none => WorldNode.texEnvironment none (some (0.05, 0.05, 0.05, 1.0))
  let envTexId := 0
  let backgroundId := 1
  let mappingId := 2
  let texCoordId := 3
  let mixShaderId := 4
  let aoId := 5
  let outputId := 6
  { nodes := [envTex, WorldNode.background, WorldNode.mapping, WorldNode.texCoord,
              WorldNode.mixShader, WorldNode.ambientOcclusion, WorldNode.outputWorld]
    links := [⟨texCoordId, "Generated", mappingId, "Vector"⟩,
              ⟨mappingId, "Vector", envTexId, "Vector"⟩,
              ⟨envTexId, "Color", backgroundId, "Color"⟩,
              ⟨backgroundId, "Background", mixShaderId, "1"⟩,
              ⟨aoId, "Color", mixShaderId, "2"⟩,
              ⟨mixShaderId, "0", outputId, "Surface"⟩] }

/-- Host/filesystem oracle for one orchestrator run: whether the source
`.glb` of a named model exists, whether `process_model` on it completes
without raising (import, HDRI fetch, export — none of these are wrapped in a
handler inside `process_model`), and whether the viewer HTML write succeeds
(that write *is* wrapped in `try/except` inside `generate_html_viewer`). -/
structure PipelineEnv where
  srcExists : String → Bool
  processOk : String → Bool
  viewerWriteOk : String → Bool

/-- Observable per-asset events of the `main` loop. -/
inductive PEvent
  | skipped (name : String)
  | started (name : String)
  | processed (name : String)
  | viewerGenerated (name : String) (ok : Bool)
deriving DecidableEq

/-- The per-asset loop of `main` (lines 406-419): a missing source file
prints an advisory and `continue`s; otherwise `process_model` runs with no
exception handler around it, so a failure propagates out of `main` and the
remaining assets are never reached (second component `false`); on success
`generate_html_viewer` runs, catching its own write errors (returning a
success flag) and never aborting the loop. -/
def runModels (env : PipelineEnv) : List String → List PEvent × Bool
  | [] => ([], true)
  | m :: rest =>
      if env.srcExists m then
        if env.processOk m then
          let r := runModels env rest
          (PEvent.started m :: PEvent.processed m ::
             PEvent.viewerGenerated m (env.viewerWriteOk m) :: r.1, r.2)
        else
          ([PEvent.started m], false)
      else
        let r := runModels env rest
        (PEvent.skipped m :: r.1, r.2)

/-! ## Theorems -/

/-- The synthesized graph's BSDF scalar inputs are exactly the classification
of the material name, whatever channels are available. -/
theorem buildMaterialGraph_bsdf (maps : LoadedMaps) (matName : String) :
    (buildMaterialGraph maps matName).bsdf = classify matName := rfl

/-- C1: every material whose (case-insensitive) name contains "gold" is
classified with metallic 1.0 and roughness 0.2 on the surface node; because
the gold rule heads the ordered `if/elif` table, this holds in particular for
names that also contain "metal" (which would otherwise give the silver/metal
rule's roughness 0.1). -/
theorem c1_gold_rule_first_match (maps : LoadedMaps) (matName : String)
    (h : strContains (strToLower matName) "gold" = true) :
    (buildMaterialGraph maps matName).bsdf.metallic = 1 ∧
    (buildMaterialGraph maps matName).bsdf.roughness = 0.2 := by
  have hc : classify matName = { defaultInputs with metallic := 1, roughness := 0.2 } := by
    unfold classify
    simp [h]
  rw [buildMaterialGraph_bsdf, hc]
  exact ⟨rfl, rfl⟩

/-- C1 witness: the name "Gold_Metal_01" contains both "gold" and "metal" in
mixed case, and classifies as gold. -/
theorem c1_gold_rule_first_match_witness :
    strContains (strToLower "Gold_Metal_01") "gold" = true ∧
    strContains (strToLower "Gold_Metal_01") "metal" = true ∧
    (buildMaterialGraph ⟨none, none, none, none⟩ "Gold_Metal_01").bsdf.metallic = 1 ∧
    (buildMaterialGraph ⟨none, none, none, none⟩ "Gold_Metal_01").bsdf.roughness = 0.2 :=
  ⟨by decide, by decide,
   c1_gold_rule_first_match ⟨none, none, none, none⟩ "Gold_Metal_01" (by decide)⟩

/-- C4: when no texture channel resource is available (no channel file
exists), the synthesized graph contains no sampler (`texImage`) node, the
surface node's scalar inputs are exactly the classified defaults, and no link
feeds any surface-node input (node id 0). -/
theorem c4_no_channels_no_samplers (fs : TexDir) (matName : String)
    (h : ∀ n, fs.fileExists n = false) :
    (∀ nd ∈ (buildMaterialGraph (loadMaps fs) matName).nodes,
        ∀ ch tx, nd ≠ MatNode.texImage ch tx) ∧
    (buildMaterialGraph (loadMaps fs) matName).bsdf = classify matName ∧
    (∀ l ∈ (buildMaterialGraph (loadMaps fs) matName).links, l.dst ≠ 0) := by
  have hm : loadMaps fs = ⟨none, none, none, none⟩ := by
    simp [loadMaps, load_texture, h]
  rw [hm]
  refine ⟨?_, rfl, ?_⟩
  · intro nd hnd ch tx
    simp [buildMaterialGraph, create_texture_node] at hnd
    rcases hnd with h1 | h1 | h1 | h1 <;> subst h1 <;> intro hcon <;> cases hcon
  · intro l hl
    simp [buildMaterialGraph, create_texture_node] at hl
    rcases hl with h1 | h1 <;> subst h1 <;> decide

/-- C4 witness: with an empty textures directory, the graph for a material
named "ring" has the promised shape. -/
theorem c4_no_channels_no_samplers_witness :
    (∀ nd ∈ (buildMaterialGraph (loadMaps ⟨fun _ => false, fun _ => false⟩) "ring").nodes,
        ∀ ch tx, nd ≠ MatNode.texImage ch tx) ∧
    (buildMaterialGraph (loadMaps ⟨fun _ => false, fun _ => false⟩) "ring").bsdf =
      classify "ring" ∧
    (∀ l ∈ (buildMaterialGraph (loadMaps ⟨fun _ => false, fun _ => false⟩) "ring").links,
        l.dst ≠ 0) :=
  c4_no_channels_no_samplers ⟨fun _ => false, fun _ => false⟩ "ring" (fun _ => rfl)

/-- The tag discipline a sampler node must satisfy: base-color samplers are
tagged sRGB, all other samplers Non-Color; non-sampler nodes are
unconstrained. -/
def samplerTagOK : MatNode → Prop
  | MatNode.texImage ch tx =>
      tx.colorSpace = (if ch = Channel.baseColor then ColorSpace.sRGB else ColorSpace.nonColor)
  | _ => True

/-- Every node of a synthesized graph satisfies the tag discipline, whatever
channels are available. -/
theorem buildMaterialGraph_nodes_tagOK (maps : LoadedMaps) (matName : String) :
    ∀ nd ∈ (buildMaterialGraph maps matName).nodes, samplerTagOK nd := by
  obtain ⟨b, nm, rg, mt⟩ := maps
  cases b <;> cases nm <;> cases rg <;> cases mt <;>
    simp [buildMaterialGraph, create_texture_node, samplerTagOK]

/-- Every sampler node in a synthesized graph carries the tag matching its
channel: `sRGB` for base color, `Non-Color` for normal/roughness/metallic. -/
theorem buildMaterialGraph_texImage_tag (maps : LoadedMaps) (matName : String)
    (ch : Channel) (tx : Texture)
    (h : MatNode.texImage ch tx ∈ (buildMaterialGraph maps matName).nodes) :
    tx.colorSpace =
      (if ch = Channel.baseColor then ColorSpace.sRGB else ColorSpace.nonColor) := by
  have htag := buildMaterialGraph_nodes_tagOK maps matName (MatNode.texImage ch tx) h
  simpa [samplerTagOK] using htag

/-- C9: in every node tree attached by material processing, every sampler's
texture carries the declared tag for its channel — `color` (sRGB) for the
base-color texture, `data` (Non-Color) for normal, roughness and metallic —
for every material slot processed. -/
theorem c9_texture_tags (fs : TexDir) (slots : List (Option Material))
    (mat : Material) (g : MatGraph) (ch : Channel) (tx : Texture)
    (hmem : some mat ∈ process_materials fs slots)
    (hg : mat.node_tree = some g)
    (hnode : MatNode.texImage ch tx ∈ g.nodes) :
    tx.colorSpace =
      (if ch = Channel.baseColor then ColorSpace.sRGB else ColorSpace.nonColor) := by
  by_cases he : slots.isEmpty
  · rw [List.isEmpty_iff] at he
    subst he
    simp [process_materials] at hmem
  · simp [process_materials, he] at hmem
    obtain ⟨slot, _, hslot⟩ := hmem
    cases slot with
    | none => exact Option.noConfusion hslot
    | some mat0 =>
        have hslot2 :
            some ({ name := mat0.name,
                    node_tree := some (buildMaterialGraph (loadMaps fs) mat0.name) } : Material) =
              some mat := hslot
        injection hslot2 with he2
        rw [← he2] at hg
        have hg2 : some (buildMaterialGraph (loadMaps fs) mat0.name) = some g := hg
        injection hg2 with hg3
        rw [← hg3] at hnode
        exact buildMaterialGraph_texImage_tag (loadMaps fs) mat0.name ch tx hnode

/-- C9 witness: with all four channel files present and loadable, the
base-color sampler of the graph attached to a one-slot object carries the
sRGB tag. -/
theorem c9_texture_tags_witness :
    Texture.colorSpace ⟨"albedo", ColorSpace.sRGB⟩ =
      (if Channel.baseColor = Channel.baseColor then ColorSpace.sRGB else ColorSpace.nonColor) :=
  c9_texture_tags ⟨fun _ => true, fun _ => true⟩ [some ⟨"g", none⟩]
    ⟨"g", some (buildMaterialGraph (loadMaps ⟨fun _ => true, fun _ => true⟩) "g")⟩
    (buildMaterialGraph (loadMaps ⟨fun _ => true, fun _ => true⟩) "g")
    Channel.baseColor ⟨"albedo", ColorSpace.sRGB⟩
    (List.mem_singleton.mpr rfl) rfl
    (by simp [buildMaterialGraph, create_texture_node, loadMaps, load_texture])

/-- C10: material processing preserves the slot list's length, leaves every
null slot untouched (skipped by `continue`), and still synthesizes a graph
for every non-null slot. -/
theorem c10_null_slot_skipped (fs : TexDir) (slots : List (Option Material)) (i : Nat) :
    (process_materials fs slots).length = slots.length ∧
    (slots[i]? = some none → (process_materials fs slots)[i]? = some none) ∧
    (∀ mat, slots[i]? = some (some mat) →
      (process_materials fs slots)[i]? =
        some (some { mat with node_tree := some (buildMaterialGraph (loadMaps fs) mat.name) })) := by
  by_cases he : slots.isEmpty
  · rw [List.isEmpty_iff] at he
    subst he
    refine ⟨rfl, ?_, ?_⟩ <;> simp [process_materials]
  · refine ⟨?_, ?_, ?_⟩
    · simp [process_materials, he]
    · intro h
      simp [process_materials, he, List.getElem?_map, h]
    · intro mat h
      simp [process_materials, he, List.getElem?_map, h]

/-- C10 witness: a null first slot stays null while the non-null second slot
still receives a synthesized tree. -/
theorem c10_null_slot_skipped_witness :
    (process_materials ⟨fun _ => false, fun _ => false⟩ [none, some ⟨"m", none⟩])[0]? =
      some none ∧
    (process_materials ⟨fun _ => false, fun _ => false⟩ [none, some ⟨"m", none⟩])[1]? =
      some (some ⟨"m", some (buildMaterialGraph
        (loadMaps ⟨fun _ => false, fun _ => false⟩) "m")⟩) :=
  ⟨(c10_null_slot_skipped ⟨fun _ => false, fun _ => false⟩ [none, some ⟨"m", none⟩] 0).2.1
     (by decide),
   (c10_null_slot_skipped ⟨fun _ => false, fun _ => false⟩ [none, some ⟨"m", none⟩] 1).2.2
     ⟨"m", none⟩ (by decide)⟩

/-- C6 counterexample: when the channel file is absent, `load_texture`
returns `none` but prints no warning (the `return None` on the absent path
has no print), refuting "absent or unreadable ⇒ logs a warning". -/
theorem c6_counterexample :
    (⟨fun _ => false, fun _ => false⟩ : TexDir).fileExists "albedo" = false ∧
    load_texture ⟨fun _ => false, fun _ => false⟩ "albedo" "sRGB" = (none, false) := by
  decide

/-- C6 amended: the loader totally returns an optional texture (never
raises), case by case: an absent file yields `none` silently (no warning);
a present but unreadable file yields `none` with a warning; a present,
readable file yields the loaded texture named after the channel with the
caller-supplied color-space tag applied unconditionally, and no warning. -/
theorem c6_loader_contract (fs : TexDir) (channelName colorSpace : String) :
    (fs.fileExists channelName = false →
      load_texture fs channelName colorSpace = (none, false)) ∧
    (fs.fileExists channelName = true → fs.loadOk channelName = false →
      load_texture fs channelName colorSpace = (none, true)) ∧
    (fs.fileExists channelName = true → fs.loadOk channelName = true →
      load_texture fs channelName colorSpace =
        (some ⟨channelName,
           if colorSpace = "sRGB" then ColorSpace.sRGB else ColorSpace.nonColor⟩,
         false)) := by
  refine ⟨fun h1 => ?_, fun h1 h2 => ?_, fun h1 h2 => ?_⟩
  · simp [load_texture, h1]
  · simp [load_texture, h1, h2]
  · simp [load_texture, h1, h2]

/-- C6 amended witness: all three loader cases at concrete directories — an
absent albedo file (silent none), a present unreadable normal file (none
with warning), and a present readable albedo file (sRGB-tagged texture). -/
theorem c6_loader_contract_witness :
    load_texture ⟨fun _ => false, fun _ => false⟩ "albedo" "sRGB" = (none, false) ∧
    load_texture ⟨fun _ => true, fun _ => false⟩ "normal" "Non-Color" = (none, true) ∧
    load_texture ⟨fun _ => true, fun _ => true⟩ "albedo" "sRGB" =
      (some ⟨"albedo", ColorSpace.sRGB⟩, false) := by
  refine ⟨(c6_loader_contract ⟨fun _ => false, fun _ => false⟩ "albedo" "sRGB").1 rfl,
          (c6_loader_contract ⟨fun _ => true, fun _ => false⟩ "normal" "Non-Color").2.1 rfl rfl,
          ?_⟩
  have h := (c6_loader_contract ⟨fun _ => true, fun _ => true⟩ "albedo" "sRGB").2.2 rfl rfl
  simpa using h

/-- C7: the world graph built on the panorama-load-failure path has the same
node set and link topology as the with-panorama graph: the
environment-sample node (id 0) is retained, carrying no image and the
constant low-intensity color (0.05, 0.05, 0.05, 1.0) instead. -/
theorem c7_hdri_fallback_topology (panorama : Option Texture) :
    worldTopology (setup_hdri panorama) = worldTopology (setup_hdri none) ∧
    (setup_hdri none).nodes[0]? =
      some (WorldNode.texEnvironment none (some (0.05, 0.05, 0.05, 1.0))) := by
  cases panorama <;> simp [setup_hdri, worldTopology, worldKind]

/-- C3 counterexample: on a zero-polygon mesh the normalization still
executes the NormalsFixed stage (the edit-mode `normals_make_consistent`
block at lines 322-325 is outside the polygon guard), refuting "skips both
Smoothed and NormalsFixed". -/
theorem c3_counterexample :
    (⟨(1, 1, 1), (0, 0, 0), (0, 0, 0), [], 0, false, false, 0, false, []⟩ : MeshObj).polygons
        = 0 ∧
    Stage.normalsFixed ∈
      (normalizeObj (fun _ v => v) ⟨fun _ => false, fun _ => false⟩
        ⟨(1, 1, 1), (0, 0, 0), (0, 0, 0), [], 0, false, false, 0, false, []⟩).2 ∧
    (normalizeObj (fun _ v => v) ⟨fun _ => false, fun _ => false⟩
        ⟨(1, 1, 1), (0, 0, 0), (0, 0, 0), [], 0, false, false, 0, false, []⟩).1.normalsRecomputed
      = true := by
  refine ⟨rfl, ?_, rfl⟩
  simp [normalizeObj, normalizeTrace]

/-- C3 amended: on a zero-polygon mesh the normalization skips only the
Smoothed stage (shading flags and auto-smooth angle are untouched), while
the NormalsFixed stage still runs unconditionally; neither path raises. -/
theorem c3_zero_polygons (rot : V3 → V3 → V3) (fs : TexDir) (m : MeshObj)
    (h : m.polygons = 0) :
    (normalizeObj rot fs m).2 =
      [Stage.transformBaked, Stage.originCentered, Stage.shaded, Stage.normalsFixed] ∧
    Stage.smoothed ∉ (normalizeObj rot fs m).2 ∧
    (normalizeObj rot fs m).1.shadeSmooth = m.shadeSmooth ∧
    (normalizeObj rot fs m).1.use_auto_smooth = m.use_auto_smooth ∧
    (normalizeObj rot fs m).1.auto_smooth_angle = m.auto_smooth_angle ∧
    (normalizeObj rot fs m).1.normalsRecomputed = true := by
  unfold normalizeObj normalizeTrace transform_apply origin_set_bounds
  simp [h]

/-- C3 amended witness: a concrete zero-polygon mesh. -/
theorem c3_zero_polygons_witness :
    (normalizeObj (fun _ v => v) ⟨fun _ => true, fun _ => true⟩
        ⟨(2, 1, 1), (0, 0, 0), (3, 0, 0), [], 0, false, false, 0, false, []⟩).2 =
      [Stage.transformBaked, Stage.originCentered, Stage.shaded, Stage.normalsFixed] :=
  (c3_zero_polygons (fun _ v => v) ⟨fun _ => true, fun _ => true⟩
    ⟨(2, 1, 1), (0, 0, 0), (3, 0, 0), [], 0, false, false, 0, false, []⟩ rfl).1

/-- C5: the executed normalization stages are always, in order, a sublist of
TransformBaked → OriginCentered → Shaded → Smoothed → NormalsFixed (so no
backward transitions), with TransformBaked, OriginCentered, Shaded and
NormalsFixed always executed, and TransformBaked strictly before both
OriginCentered and NormalsFixed. -/
theorem c5_stage_order (rot : V3 → V3 → V3) (fs : TexDir) (m : MeshObj) :
    List.Sublist (normalizeObj rot fs m).2
      [Stage.transformBaked, Stage.originCentered, Stage.shaded,
       Stage.smoothed, Stage.normalsFixed] ∧
    Stage.transformBaked ∈ (normalizeObj rot fs m).2 ∧
    Stage.originCentered ∈ (normalizeObj rot fs m).2 ∧
    Stage.shaded ∈ (normalizeObj rot fs m).2 ∧
    Stage.normalsFixed ∈ (normalizeObj rot fs m).2 ∧
    (normalizeObj rot fs m).2.indexOf Stage.transformBaked <
      (normalizeObj rot fs m).2.indexOf Stage.originCentered ∧
    (normalizeObj rot fs m).2.indexOf Stage.transformBaked <
      (normalizeObj rot fs m).2.indexOf Stage.normalsFixed := by
  have htr : (normalizeObj rot fs m).2 = normalizeTrace m := rfl
  rw [htr]
  unfold normalizeTrace
  by_cases h : 0 < m.polygons <;> simp [h]

/-- Every normalization pass ends with identity scale, zero rotation and the
origin at world zero: scale and rotation are baked (`transform_apply`) and
the location is zeroed right after origin centering. -/
theorem normalizeObj_transform_final (rot : V3 → V3 → V3) (fs : TexDir) (m : MeshObj) :
    (normalizeObj rot fs m).1.scale = ((1 : ℚ), (1 : ℚ), (1 : ℚ)) ∧
    (normalizeObj rot fs m).1.rotation_euler = ((0 : ℚ), (0 : ℚ), (0 : ℚ)) ∧
    (normalizeObj rot fs m).1.location = ((0 : ℚ), (0 : ℚ), (0 : ℚ)) := by
  unfold normalizeObj transform_apply origin_set_bounds
  by_cases h : 0 < m.polygons <;> simp [h]

/-- C8: re-running the per-mesh normalization on an already normalized mesh
leaves the observable transform state unchanged — scale stays identity,
rotation stays zero, and the origin/world position stays at world zero. -/
theorem c8_renormalize_idempotent (rot : V3 → V3 → V3) (fs : TexDir) (m : MeshObj) :
    (normalizeObj rot fs (normalizeObj rot fs m).1).1.scale =
      (normalizeObj rot fs m).1.scale ∧
    (normalizeObj rot fs (normalizeObj rot fs m).1).1.rotation_euler =
      (normalizeObj rot fs m).1.rotation_euler ∧
    (normalizeObj rot fs (normalizeObj rot fs m).1).1.location =
      (normalizeObj rot fs m).1.location ∧
    (normalizeObj rot fs (normalizeObj rot fs m).1).1.scale = ((1 : ℚ), (1 : ℚ), (1 : ℚ)) ∧
    (normalizeObj rot fs (normalizeObj rot fs m).1).1.rotation_euler =
      ((0 : ℚ), (0 : ℚ), (0 : ℚ)) ∧
    (normalizeObj rot fs (normalizeObj rot fs m).1).1.location =
      ((0 : ℚ), (0 : ℚ), (0 : ℚ)) := by
  obtain ⟨h1, h2, h3⟩ := normalizeObj_transform_final rot fs m
  obtain ⟨g1, g2, g3⟩ := normalizeObj_transform_final rot fs (normalizeObj rot fs m).1
  exact ⟨g1.trans h1.symm, g2.trans h2.symm, g3.trans h3.symm, g1, g2, g3⟩

/-- C2 counterexample: with both source files present but `process_model`
failing on "ring" (e.g. an export write error — there is no handler around
`process_model` in `main`'s loop), the run aborts after "ring" and "earring"
is never attempted: no skip, start or processed event for it exists,
refuting "every asset in the list is attempted regardless of any single
asset's failure". -/
theorem c2_counterexample :
    (runModels ⟨fun _ => true, fun n => !(n == "ring"), fun _ => true⟩
        ["ring", "earring"]).1 = [PEvent.started "ring"] ∧
    (runModels ⟨fun _ => true, fun n => !(n == "ring"), fun _ => true⟩
        ["ring", "earring"]).2 = false ∧
    ∀ e ∈ (runModels ⟨fun _ => true, fun n => !(n == "ring"), fun _ => true⟩
        ["ring", "earring"]).1,
      e ≠ PEvent.skipped "earring" ∧ e ≠ PEvent.started "earring" ∧
      e ≠ PEvent.processed "earring" := by
  decide

/-- C2 amended: a missing source file makes the loop skip that asset with an
advisory and continue, and viewer-generation write failures are caught
inside the generator and never abort; but forward progress across the whole
list is only guaranteed when no present asset's `process_model` raises —
under that assumption every listed asset is attempted (skipped when its file
is missing, otherwise processed) and the loop completes, with no assumption
on viewer write success. -/
theorem c2_forward_progress (env : PipelineEnv) (models : List String)
    (h : ∀ n ∈ models, env.srcExists n = true → env.processOk n = true) :
    (runModels env models).2 = true ∧
    ∀ n ∈ models,
      (env.srcExists n = false → PEvent.skipped n ∈ (runModels env models).1) ∧
      (env.srcExists n = true → PEvent.processed n ∈ (runModels env models).1) := by
  induction models with
  | nil => exact ⟨rfl, by simp⟩
  | cons m rest ih =>
      have hrest : ∀ n ∈ rest, env.srcExists n = true → env.processOk n = true :=
        fun n hn => h n (List.mem_cons_of_mem m hn)
      obtain ⟨ih1, ih2⟩ := ih hrest
      by_cases hm : env.srcExists m = true
      · have hp : env.processOk m = true := h m (List.mem_cons_self m rest) hm
        refine ⟨by simp [runModels, hm, hp, ih1], ?_⟩
        intro n hn
        rcases List.mem_cons.mp hn with rfl | hn2
        · exact ⟨fun hf => absurd hm (by simp [hf]),
                 fun _ => by simp [runModels, hm, hp]⟩
        · obtain ⟨ha, hb⟩ := ih2 n hn2
          refine ⟨fun hf => ?_, fun ht => ?_⟩
          · have hx := ha hf
            simp [runModels, hm, hp]
            tauto
          · have hx := hb ht
            simp [runModels, hm, hp]
            tauto
      · have hmf : env.srcExists m = false := Bool.eq_false_iff.mpr hm
        refine ⟨by simp [runModels, hmf, ih1], ?_⟩
        intro n hn
        rcases List.mem_cons.mp hn with rfl | hn2
        · exact ⟨fun _ => by simp [runModels, hmf], fun ht => absurd ht hm⟩
        · obtain ⟨ha, hb⟩ := ih2 n hn2
          refine ⟨fun hf => ?_, fun ht => ?_⟩
          · have hx := ha hf
            simp [runModels, hmf]
            tauto
          · have hx := hb ht
            simp [runModels, hmf]
            tauto

/-- C2 amended witness: "earring"'s source file is missing and every viewer
write fails, yet all three assets are attempted and the loop completes. -/
theorem c2_forward_progress_witness :
    (runModels ⟨fun n => !(n == "earring"), fun _ => true, fun _ => false⟩
        ["ring", "earring", "shoe"]).2 = true ∧
    PEvent.skipped "earring" ∈
      (runModels ⟨fun n => !(n == "earring"), fun _ => true, fun _ => false⟩
        ["ring", "earring", "shoe"]).1 ∧
    PEvent.processed "ring" ∈
      (runModels ⟨fun n => !(n == "earring"), fun _ => true, fun _ => false⟩
        ["ring", "earring", "shoe"]).1 ∧
    PEvent.processed "shoe" ∈
      (runModels ⟨fun n => !(n == "earring"), fun _ => true, fun _ => false⟩
        ["ring", "earring", "shoe"]).1 := by
  have hall := c2_forward_progress
    ⟨fun n => !(n == "earring"), fun _ => true, fun _ => false⟩
    ["ring", "earring", "shoe"] (by decide)
  exact ⟨hall.1,
         (hall.2 "earring" (by decide)).1 (by decide),
         (hall.2 "ring" (by decide)).2 (by decide),
         (hall.2 "shoe" (by decide)).2 (by decide)⟩

end GLBModels
